import Mathlib

/-!
Verification development for the network monitoring pipeline in
src/network_monitor.py.  The Python source is shallowly embedded: rows of the
network_checks table become a structure over exact rationals, the aggregation
logic of get_report_data (lines 273-311) becomes a pure function, and the
effectful routines (perform_network_check, send_email_report,
perform_speed_test) become total functions over explicit outcome parameters
for the external calls they make, returning traces of the records saved, the
log events emitted, and the files created or removed.
-/

/-- Two-decimal fixed-point rendering of a rational, the reference model of
the Python format string with two decimal places used throughout
network_monitor.py.  The rounded value floor(q * 100 + 1/2) is computed on
the numerator and denominator with integer floor division so that the
definition evaluates by kernel reduction on literals. -/
def fmt2 (q : ℚ) : String :=
  let n : ℤ := (q.num * 200 + (q.den : ℤ)).fdiv (2 * (q.den : ℤ))
  let sign := if n < 0 then "-" else ""
  let m : ℕ := n.natAbs
  let fracPart := m % 100
  sign ++ toString (m / 100) ++ "." ++ (if fracPart < 10 then "0" else "") ++ toString fracPart

/-- One row of the network_checks table (src/network_monitor.py lines
111-120): timestamp, download_speed, upload_speed, latency, ip_address.
Speeds and latency are FLOAT columns, modelled as exact rationals; the
timestamp is carried as its rendered string since only its display is used by
the aggregation. -/
structure NetworkCheck where
  timestamp : String
  download_speed : ℚ
  upload_speed : ℚ
  latency : ℚ
  ip_address : String
deriving Repr, DecidableEq

/-- The summary dictionary built by get_report_data (lines 282-289), in its
insertion order. -/
structure Summary where
  avgDownload : String
  avgUpload : String
  avgLatency : String
  ipChanges : String
  slowDownloadIncidents : ℕ
  slowUploadIncidents : ℕ
deriving Repr, DecidableEq

/-- One incident row appended by get_report_data (lines 295-299): rendered
timestamp, download display, upload display. -/
structure IncidentRow where
  timestamp : String
  downloadDisplay : String
  uploadDisplay : String
deriving Repr, DecidableEq

/-- The dictionary returned by get_report_data on success (lines 301-311). -/
structure ReportData where
  summary : Summary
  incidents : List IncidentRow
  rawData : List (String × ℚ × ℚ × ℚ × String)
deriving Repr, DecidableEq

/-- The incident row built for a record r in the loop at lines 293-299:
each display field is the two-decimal value with unit when the field is below
its own threshold, and the sentinel "OK" otherwise. -/
def incidentRow (dT uT : ℚ) (r : NetworkCheck) : IncidentRow :=
  { timestamp := r.timestamp
    downloadDisplay :=
      if r.download_speed < dT then fmt2 r.download_speed ++ " Mbps" else "OK"
    uploadDisplay :=
      if r.upload_speed < uT then fmt2 r.upload_speed ++ " Mbps" else "OK" }

/-- The report dictionary computed by get_report_data from a non-empty result
set (lines 277-311).  dT and uT are the currently configured
DOWNLOAD_THRESHOLD and UPLOAD_THRESHOLD (lines 49-50); the Python set of ip
addresses (line 280) becomes List.dedup, and the generator-sum incident
counters (lines 287-288) become filtered lengths. -/
def mkReport (dT uT : ℚ) (results : List NetworkCheck) : ReportData :=
  let download_speeds := results.map (fun r => r.download_speed)
  let upload_speeds := results.map (fun r => r.upload_speed)
  let latencies := results.map (fun r => r.latency)
  let ip_addresses := (results.map (fun r => r.ip_address)).dedup
  { summary :=
      { avgDownload :=
          fmt2 (download_speeds.sum / (download_speeds.length : ℚ)) ++ " Mbps"
        avgUpload :=
          fmt2 (upload_speeds.sum / (upload_speeds.length : ℚ)) ++ " Mbps"
        avgLatency :=
          fmt2 (latencies.sum / (latencies.length : ℚ)) ++ " ms"
        ipChanges := if 1 < ip_addresses.length then "Yes" else "No"
        slowDownloadIncidents :=
          (download_speeds.filter (fun s => decide (s < dT))).length
        slowUploadIncidents :=
          (upload_speeds.filter (fun s => decide (s < uT))).length }
    incidents :=
      (results.filter
        (fun r => decide (r.download_speed < dT) || decide (r.upload_speed < uT))).map
        (incidentRow dT uT)
    rawData :=
      results.map
        (fun r => (r.timestamp, r.download_speed, r.upload_speed, r.latency, r.ip_address)) }

/-- Aggregation step of get_report_data (lines 271-311): an empty result set
yields None (lines 273-274), otherwise the report dictionary is built. -/
def aggregate (dT uT : ℚ) (results : List NetworkCheck) : Option ReportData :=
  if results.isEmpty then none else some (mkReport dT uT results)

/-- Return value of get_report_data (lines 243-319): the query either yields
a result set, which is aggregated, or raises, in which case the except arm at
lines 312-314 returns None. -/
def get_report_data (dT uT : ℚ) (query : Except Unit (List NetworkCheck)) :
    Option ReportData :=
  match query with
  | Except.ok results => aggregate dT uT results
  | Except.error _ => none

/-- Number of error events logged by get_report_data: one when the query
raises (line 313), none otherwise. -/
def get_report_data_errors (query : Except Unit (List NetworkCheck)) : ℕ :=
  match query with
  | Except.ok _ => 0
  | Except.error _ => 1

/-- Observable outcome of one send_email_report cycle (lines 321-381):
counts of warning, error and informational log events, whether the PDF and
CSV artifacts were ever generated, whether the email was handed to the
transport, and whether each artifact still exists on disk when the function
returns. -/
structure EmailState where
  warnings : ℕ
  errors : ℕ
  infos : ℕ
  pdfGenerated : Bool
  csvGenerated : Bool
  emailSent : Bool
  pdfExists : Bool
  csvExists : Bool
deriving Repr, DecidableEq

/-- Embedding of send_email_report (lines 321-381).  The whole body sits in
one try/except whose handler logs a single error (lines 380-381).  Control
flow: when the report data is absent, one warning is logged and the function
returns (lines 327-330); otherwise the PDF and CSV artifacts are generated
(lines 336-337), the email is sent (lines 369-372, raising when smtpOk is
false), a success info is logged (line 374), and only then are the two
artifacts removed (lines 377-378), each removal raising when its rmOk flag is
false.  Any raise jumps to the handler, leaving whatever files existed at
that point on disk.  The function is total: no exception escapes it. -/
def send_email_report (data : Option ReportData) (smtpOk rmPdfOk rmCsvOk : Bool) :
    EmailState :=
  match data with
  | none =>
      { warnings := 1, errors := 0, infos := 0, pdfGenerated := false,
        csvGenerated := false, emailSent := false, pdfExists := false, csvExists := false }
  | some _ =>
      if smtpOk then
        if rmPdfOk then
          if rmCsvOk then
            { warnings := 0, errors := 0, infos := 1, pdfGenerated := true,
              csvGenerated := true, emailSent := true, pdfExists := false, csvExists := false }
          else
            { warnings := 0, errors := 1, infos := 1, pdfGenerated := true,
              csvGenerated := true, emailSent := true, pdfExists := false, csvExists := true }
        else
          { warnings := 0, errors := 1, infos := 1, pdfGenerated := true,
            csvGenerated := true, emailSent := true, pdfExists := true, csvExists := true }
      else
        { warnings := 0, errors := 1, infos := 0, pdfGenerated := true,
          csvGenerated := true, emailSent := false, pdfExists := true, csvExists := true }

/-- Observable outcome of one perform_network_check cycle: the rows inserted
into the network_checks table (as value tuples) and the counts of
informational and error log events across the cycle. -/
structure CheckTrace where
  saved : List (ℚ × ℚ × ℚ × String)
  infos : ℕ
  errors : ℕ
deriving Repr, DecidableEq

/-- Embedding of save_check_results (lines 156-189): when the database write
succeeds one row with the given values is inserted and one informational
event is logged (line 182); when it raises, the except arm logs one error
(line 184) and nothing is inserted.  Either way the function returns
normally. -/
def save_check_results (dbOk : Bool) (d u l : ℚ) (ip : String) : CheckTrace :=
  if dbOk then { saved := [(d, u, l, ip)], infos := 1, errors := 0 }
  else { saved := [], infos := 0, errors := 1 }

/-- Embedding of perform_network_check (lines 383-392): the speed test yields
an optional triple and the IP lookup an optional address; when all four
values are present the record is saved via save_check_results and a
completion info is logged (line 390); when any is absent, one error is logged
(line 392) and nothing is saved. -/
def perform_network_check (dbOk : Bool)
    (speed : Option ℚ × Option ℚ × Option ℚ) (ip : Option String) : CheckTrace :=
  match speed, ip with
  | (some d, some u, some l), some a =>
      let t := save_check_results dbOk d u l a
      { t with infos := t.infos + 1 }
  | _, _ => { saved := [], infos := 0, errors := 1 }

/-- Embedding of perform_speed_test (lines 133-146).  The four sequential
steps inside the try block (get_best_server, download, upload, reading the
ping) are given as explicit outcomes; raw download and upload values are in
bits per second and divided by 1 000 000 (lines 139-140).  Any raise reaches
the except arm, which returns the triple (None, None, None) (line 146). -/
def perform_speed_test (bestServer : Except Unit Unit)
    (download upload ping : Except Unit ℚ) : Option ℚ × Option ℚ × Option ℚ :=
  match bestServer with
  | Except.error _ => (none, none, none)
  | Except.ok _ =>
    match download with
    | Except.error _ => (none, none, none)
    | Except.ok d =>
      match upload with
      | Except.error _ => (none, none, none)
      | Except.ok u =>
        match ping with
        | Except.error _ => (none, none, none)
        | Except.ok p => (some (d / 1000000), some (u / 1000000), some p)

/-- Document element of the rendered PDF, mirroring the reportlab flowables
appended by generate_pdf_report (lines 191-233). -/
inductive Element where
  | title (s : String)
  | spacer
  | para (s : String)
  | heading (s : String)
  | table (rows : List (List String))
deriving Repr, DecidableEq

/-- The summary section lines of the PDF body (lines 208-209), one per
summary dictionary entry in insertion order. -/
def summaryLines (s : Summary) : List String :=
  ["• Average Download Speed: " ++ s.avgDownload,
   "• Average Upload Speed: " ++ s.avgUpload,
   "• Average Latency: " ++ s.avgLatency,
   "• IP Changes: " ++ s.ipChanges,
   "• Slow Download Incidents: " ++ toString s.slowDownloadIncidents,
   "• Slow Upload Incidents: " ++ toString s.slowUploadIncidents]

/-- The three table cells of one incident row (lines 215-216). -/
def incidentCells (i : IncidentRow) : List String :=
  [i.timestamp, i.downloadDisplay, i.uploadDisplay]

/-- Embedding of generate_pdf_report (lines 191-233) as the list of flowables
handed to the document builder: title, spacer, period paragraph, spacer,
summary heading, one paragraph per summary entry, spacer, and, only when the
incident list is non-empty (line 213), the incidents heading and the table
whose first row is the fixed header (line 215) followed by one row per
incident (line 216). -/
def generate_pdf_report (data : ReportData) (startStr endStr : String) : List Element :=
  [Element.title "Network Monitoring Report", Element.spacer,
   Element.para ("Report Period: " ++ startStr ++ " - " ++ endStr), Element.spacer,
   Element.heading "Summary:"]
  ++ (summaryLines data.summary).map Element.para
  ++ [Element.spacer]
  ++ (if data.incidents.isEmpty then []
      else [Element.heading "Speed Incidents:",
            Element.table (["Timestamp", "Download Speed", "Upload Speed"]
              :: data.incidents.map incidentCells)])

/-- Concrete report dictionary used to exercise the delivery path at a
specific input. -/
def sampleReport : ReportData :=
  { summary :=
      { avgDownload := "100.00 Mbps", avgUpload := "50.00 Mbps",
        avgLatency := "20.00 ms", ipChanges := "No",
        slowDownloadIncidents := 1, slowUploadIncidents := 1 }
    incidents := [{ timestamp := "2024-03-05 15:00:00",
                    downloadDisplay := "100.00 Mbps", uploadDisplay := "50.00 Mbps" }]
    rawData := [("2024-03-05 15:00:00", 100, 50, 20, "1.2.3.4")] }

/-- C5: aggregation over an empty record set returns the absent value, and a
report cycle that receives absent report data logs exactly one warning, never
generates the PDF or CSV artifacts, and never hands an email to the
transport. -/
theorem aggregate_empty_and_report_skip (dT uT : ℚ) (smtpOk rmPdfOk rmCsvOk : Bool) :
    aggregate dT uT [] = none ∧
    send_email_report none smtpOk rmPdfOk rmCsvOk =
      { warnings := 1, errors := 0, infos := 0, pdfGenerated := false,
        csvGenerated := false, emailSent := false, pdfExists := false, csvExists := false } :=
  ⟨rfl, rfl⟩

/-- C6 counterexample: the windowed query returns the very same value, None,
for a window containing zero records and for a failed query, so the empty
indicator is not distinguishable from the failure outcome by the returned
value. -/
theorem get_report_data_empty_eq_failure :
    get_report_data 500 300 (Except.ok []) = get_report_data 500 300 (Except.error ()) :=
  rfl

/-- C6 amended: the windowed query returns None both for an empty window and
for a failed query; the two cases differ only in logging, a failed query
logging one error event and a successful query none. -/
theorem get_report_data_none_both_cases (dT uT : ℚ) (results : List NetworkCheck) :
    get_report_data dT uT (Except.ok []) = none ∧
    get_report_data dT uT (Except.error ()) = none ∧
    get_report_data_errors (Except.ok results) = 0 ∧
    get_report_data_errors (Except.error ()) = 1 :=
  ⟨rfl, rfl, rfl, rfl⟩

/-- C7 counterexample: a report cycle that generates both artifacts and then
fails in the delivery transport exits with both temporary files still on
disk, so cleanup does not happen on every exit path. -/
theorem send_email_report_leaves_files_on_failure :
    (send_email_report (some sampleReport) false true true).pdfGenerated = true ∧
    (send_email_report (some sampleReport) false true true).csvGenerated = true ∧
    (send_email_report (some sampleReport) false true true).pdfExists = true ∧
    (send_email_report (some sampleReport) false true true).csvExists = true :=
  ⟨rfl, rfl, rfl, rfl⟩

/-- C7 amended: the temporary artifacts are removed only on the success path,
after a successful send; when the transport fails both files remain on disk;
a failure during cleanup is logged as an error but does not undo the
already-sent delivery, and the cycle still returns normally. -/
theorem send_email_report_cleanup_behavior (d : ReportData) (smtpOk rmPdfOk rmCsvOk : Bool) :
    (send_email_report (some d) smtpOk rmPdfOk rmCsvOk).pdfGenerated = true ∧
    (send_email_report (some d) smtpOk rmPdfOk rmCsvOk).csvGenerated = true ∧
    (send_email_report (some d) true true true).pdfExists = false ∧
    (send_email_report (some d) true true true).csvExists = false ∧
    (send_email_report (some d) false rmPdfOk rmCsvOk).pdfExists = true ∧
    (send_email_report (some d) false rmPdfOk rmCsvOk).csvExists = true ∧
    (send_email_report (some d) true false rmCsvOk).emailSent = true ∧
    (send_email_report (some d) true false rmCsvOk).errors = 1 := by
  refine ⟨?_, ?_, rfl, rfl, rfl, rfl, rfl, rfl⟩ <;>
    cases smtpOk <;> cases rmPdfOk <;> cases rmCsvOk <;> rfl

/-- C8: when the delivery transport raises, the failure is absorbed inside
the report cycle, exactly one error event is logged, no email is sent, and
the cycle returns normally. -/
theorem send_email_report_transport_failure_absorbed (d : ReportData) (rmPdfOk rmCsvOk : Bool) :
    (send_email_report (some d) false rmPdfOk rmCsvOk).errors = 1 ∧
    (send_email_report (some d) false rmPdfOk rmCsvOk).emailSent = false ∧
    (send_email_report (some d) false rmPdfOk rmCsvOk).warnings = 0 :=
  ⟨rfl, rfl, rfl⟩

/-- C10: the speed test wrapper is all-or-nothing: either every sub-step
succeeded and all three values are returned (with the unit conversion of the
source), or some sub-step raised and the triple is (None, None, None); the
wrapper itself always returns normally. -/
theorem perform_speed_test_all_or_nothing (bs : Except Unit Unit)
    (dl ul pg : Except Unit ℚ) :
    (∃ d u p, dl = Except.ok d ∧ ul = Except.ok u ∧ pg = Except.ok p ∧
        bs = Except.ok () ∧
        perform_speed_test bs dl ul pg
          = (some (d / 1000000), some (u / 1000000), some p)) ∨
    perform_speed_test bs dl ul pg = (none, none, none) := by
  cases bs with
  | error e => right; rfl
  | ok v =>
    cases dl with
    | error e => right; rfl
    | ok d =>
      cases ul with
      | error e => right; rfl
      | ok u =>
        cases pg with
        | error e => right; rfl
        | ok p => left; exact ⟨d, u, p, rfl, rfl, rfl, rfl, rfl⟩

/-- C4 counterexample: a fully successful check cycle (all four measurements
present, database write succeeding) saves the record but logs two
informational events, the save acknowledgement of save_check_results and the
completion message of perform_network_check, not one. -/
theorem perform_network_check_info_count_two :
    (perform_network_check true (some 100, some 50, some 20) (some "1.2.3.4")).saved
      = [(100, 50, 20, "1.2.3.4")] ∧
    (perform_network_check true (some 100, some 50, some 20) (some "1.2.3.4")).infos = 2 :=
  ⟨rfl, rfl⟩

/-- C4 amended: when all four measurements are present and the database write
succeeds, the cycle saves exactly one record with those values, logs two
informational events (the save acknowledgement and the check completion) and
no error; when all four are present but the write fails, nothing is saved and
one info plus one error are logged; when at least one measurement is absent,
nothing is saved and exactly one error and no informational event are logged.
In every case the cycle returns normally. -/
theorem perform_network_check_cycle_behavior (d u l : ℚ) (a : String)
    (speed : Option ℚ × Option ℚ × Option ℚ) (ip : Option String) (dbOk : Bool) :
    perform_network_check true (some d, some u, some l) (some a)
      = { saved := [(d, u, l, a)], infos := 2, errors := 0 } ∧
    perform_network_check false (some d, some u, some l) (some a)
      = { saved := [], infos := 1, errors := 1 } ∧
    ((speed.1 = none ∨ speed.2.1 = none ∨ speed.2.2 = none ∨ ip = none) →
      perform_network_check dbOk speed ip = { saved := [], infos := 0, errors := 1 }) := by
  refine ⟨rfl, rfl, ?_⟩
  intro h
  obtain ⟨s1, s2, s3⟩ := speed
  cases s1 <;> cases s2 <;> cases s3 <;> cases ip <;> first | rfl | simp at h

/-- C4 amended, witness: a cycle with the download measurement absent saves
nothing and logs exactly one error. -/
theorem perform_network_check_cycle_behavior_witness :
    perform_network_check true (none, some 50, some 20) (some "1.2.3.4")
      = { saved := [], infos := 0, errors := 1 } :=
  (perform_network_check_cycle_behavior 0 0 0 "" (none, some 50, some 20)
    (some "1.2.3.4") true).2.2 (Or.inl rfl)

/-- Concrete record matching the end-to-end scenario of the repository
tests: 100 Mbps down, 50 Mbps up, 20 ms, IP 1.2.3.4. -/
def rec1 : NetworkCheck :=
  { timestamp := "2024-03-05 15:00:00", download_speed := 100, upload_speed := 50,
    latency := 20, ip_address := "1.2.3.4" }

/-- Concrete record meeting both thresholds. -/
def rec2 : NetworkCheck :=
  { timestamp := "2024-03-05 16:00:00", download_speed := 600, upload_speed := 400,
    latency := 30, ip_address := "1.2.3.4" }

/-- Concrete record with a second distinct IP address. -/
def rec3 : NetworkCheck :=
  { timestamp := "2024-03-05 17:00:00", download_speed := 600, upload_speed := 400,
    latency := 30, ip_address := "5.6.7.8" }

/-- C1: over any non-empty record set the summary averages are the two
decimal renderings of the arithmetic means of the download, upload and
latency values with their unit suffixes, and the slow counters are the
number of records strictly below the currently configured thresholds. -/
theorem aggregate_mean_and_slow_counts (dT uT : ℚ) (records : List NetworkCheck)
    (h : records ≠ []) :
    ∃ d, aggregate dT uT records = some d ∧
      d.summary.avgDownload
        = fmt2 ((records.map (fun r => r.download_speed)).sum
            / (records.length : ℚ)) ++ " Mbps" ∧
      d.summary.avgUpload
        = fmt2 ((records.map (fun r => r.upload_speed)).sum
            / (records.length : ℚ)) ++ " Mbps" ∧
      d.summary.avgLatency
        = fmt2 ((records.map (fun r => r.latency)).sum
            / (records.length : ℚ)) ++ " ms" ∧
      d.summary.slowDownloadIncidents
        = records.countP (fun r => decide (r.download_speed < dT)) ∧
      d.summary.slowUploadIncidents
        = records.countP (fun r => decide (r.upload_speed < uT)) := by
  have hne : records.isEmpty = false := by simp [List.isEmpty_iff, h]
  refine ⟨mkReport dT uT records, by simp [aggregate, hne], ?_, ?_, ?_, ?_, ?_⟩
  · simp [mkReport]
  · simp [mkReport]
  · simp [mkReport]
  · simp [mkReport, ← List.countP_eq_length_filter, List.countP_map, Function.comp_def]
  · simp [mkReport, ← List.countP_eq_length_filter, List.countP_map, Function.comp_def]

/-- C1 witness: one record at (100, 50, 20) against thresholds (500, 300)
yields the averages 100.00 Mbps, 50.00 Mbps, 20.00 ms and slow counters one
and one. -/
theorem aggregate_mean_and_slow_counts_witness :
    ∃ d, aggregate 500 300 [rec1] = some d ∧
      d.summary.avgDownload = "100.00 Mbps" ∧
      d.summary.avgUpload = "50.00 Mbps" ∧
      d.summary.avgLatency = "20.00 ms" ∧
      d.summary.slowDownloadIncidents = 1 ∧
      d.summary.slowUploadIncidents = 1 := by
  obtain ⟨d, hd, h1, h2, h3, h4, h5⟩ :=
    aggregate_mean_and_slow_counts 500 300 [rec1] (by decide)
  refine ⟨d, hd, ?_, ?_, ?_, ?_, ?_⟩
  · rw [h1]; norm_num [rec1]; decide
  · rw [h2]; norm_num [rec1]; decide
  · rw [h3]; norm_num [rec1]; decide
  · rw [h4]; decide
  · rw [h5]; decide

/-- C2: the incident list has exactly one row per record below either
threshold (so none for a record meeting both), every row originates from such
a record with display fields that are the two-decimal value when below the
own threshold and the sentinel OK otherwise, and every qualifying record
contributes its row. -/
theorem aggregate_incident_rows (dT uT : ℚ) (records : List NetworkCheck)
    (h : records ≠ []) :
    ∃ d, aggregate dT uT records = some d ∧
      d.incidents.length
        = records.countP
            (fun r => decide (r.download_speed < dT) || decide (r.upload_speed < uT)) ∧
      (∀ row ∈ d.incidents, ∃ r ∈ records,
        (r.download_speed < dT ∨ r.upload_speed < uT) ∧
        row.timestamp = r.timestamp ∧
        row.downloadDisplay
          = (if r.download_speed < dT then fmt2 r.download_speed ++ " Mbps" else "OK") ∧
        row.uploadDisplay
          = (if r.upload_speed < uT then fmt2 r.upload_speed ++ " Mbps" else "OK")) ∧
      (∀ r ∈ records, (r.download_speed < dT ∨ r.upload_speed < uT) →
        incidentRow dT uT r ∈ d.incidents) := by
  have hne : records.isEmpty = false := by simp [List.isEmpty_iff, h]
  refine ⟨mkReport dT uT records, by simp [aggregate, hne], ?_, ?_, ?_⟩
  · simp [mkReport, ← List.countP_eq_length_filter]
  · intro row hrow
    simp only [mkReport, List.mem_map, List.mem_filter] at hrow
    obtain ⟨r, ⟨hr, hp⟩, heq⟩ := hrow
    have hcond : r.download_speed < dT ∨ r.upload_speed < uT := by
      simpa using hp
    exact ⟨r, hr, hcond, by rw [← heq]; rfl, by rw [← heq]; rfl, by rw [← heq]; rfl⟩
  · intro r hr hcond
    simp only [mkReport, List.mem_map]
    exact ⟨r, List.mem_filter.mpr ⟨hr, by simpa using hcond⟩, rfl⟩

/-- C2 witness: with thresholds (500, 300), the record (100, 50) yields an
incident row with both displays numeric while the record (600, 400) yields
none, so the incident list of the two records has exactly one row. -/
theorem aggregate_incident_rows_witness :
    ∃ d, aggregate 500 300 [rec1, rec2] = some d ∧
      d.incidents.length = 1 ∧
      incidentRow 500 300 rec1 ∈ d.incidents := by
  obtain ⟨d, hd, hlen, _, hmem⟩ :=
    aggregate_incident_rows 500 300 [rec1, rec2] (by decide)
  exact ⟨d, hd, by rw [hlen]; decide,
    hmem rec1 (by decide) (Or.inl (by decide))⟩

/-- C3: the IP change flag of a non-empty window is Yes exactly when the set
of distinct observed addresses has more than one element, is No otherwise,
and is invariant under any permutation of the records. -/
theorem aggregate_ip_change_flag (dT uT : ℚ) (records records2 : List NetworkCheck)
    (h : records ≠ []) (hp : records.Perm records2) :
    ∃ d d2, aggregate dT uT records = some d ∧ aggregate dT uT records2 = some d2 ∧
      (d.summary.ipChanges = "Yes"
        ↔ 1 < (records.map (fun r => r.ip_address)).toFinset.card) ∧
      (d.summary.ipChanges = "No"
        ↔ ¬ 1 < (records.map (fun r => r.ip_address)).toFinset.card) ∧
      d2.summary.ipChanges = d.summary.ipChanges := by
  have h2 : records2 ≠ [] := by
    intro hn
    subst hn
    exact h hp.eq_nil
  have hne : records.isEmpty = false := by simp [List.isEmpty_iff, h]
  have hne2 : records2.isEmpty = false := by simp [List.isEmpty_iff, h2]
  have hlen : ((records2.map (fun r => r.ip_address)).dedup).length
      = ((records.map (fun r => r.ip_address)).dedup).length :=
    ((hp.map (fun r => r.ip_address)).dedup).length_eq.symm
  refine ⟨mkReport dT uT records, mkReport dT uT records2,
    by simp [aggregate, hne], by simp [aggregate, hne2], ?_, ?_, ?_⟩
  · rw [List.card_toFinset]
    by_cases hc : 1 < ((records.map (fun r => r.ip_address)).dedup).length
    · simp [mkReport, hc]
    · simp [mkReport, hc]
  · rw [List.card_toFinset]
    by_cases hc : 1 < ((records.map (fun r => r.ip_address)).dedup).length
    · simp [mkReport, hc]
    · simp [mkReport, hc]
  · simp [mkReport, hlen]

/-- C3 witness: records with addresses [a, a, b] give the flag Yes, and any
reordering of them gives the same flag. -/
theorem aggregate_ip_change_flag_witness :
    ∃ d d2, aggregate 500 300 [rec1, rec2, rec3] = some d ∧
      aggregate 500 300 [rec3, rec1, rec2] = some d2 ∧
      d.summary.ipChanges = "Yes" ∧ d2.summary.ipChanges = "Yes" := by
  obtain ⟨d, d2, hd, hd2, hyes, _, heq⟩ :=
    aggregate_ip_change_flag 500 300 [rec1, rec2, rec3] [rec3, rec1, rec2]
      (by decide) (by decide)
  exact ⟨d, d2, hd, hd2, hyes.mpr (by decide), heq.trans (hyes.mpr (by decide))⟩

/-- Concrete report dictionary with an empty incident list. -/
def sampleReportNoInc : ReportData :=
  { sampleReport with incidents := [] }

/-- C9: document building always succeeds and produces the title, the period
line and the summary heading; when the incident list is empty no table
element appears anywhere in the document, and when it is non-empty the
document contains the incidents table whose first row is the fixed header and
which has exactly one further row per incident. -/
theorem generate_pdf_report_sections (data : ReportData) (s e : String) :
    Element.title "Network Monitoring Report" ∈ generate_pdf_report data s e ∧
    Element.para ("Report Period: " ++ s ++ " - " ++ e) ∈ generate_pdf_report data s e ∧
    Element.heading "Summary:" ∈ generate_pdf_report data s e ∧
    (data.incidents = [] → ∀ rows, Element.table rows ∉ generate_pdf_report data s e) ∧
    (data.incidents ≠ [] →
      Element.table (["Timestamp", "Download Speed", "Upload Speed"]
        :: data.incidents.map incidentCells) ∈ generate_pdf_report data s e ∧
      (["Timestamp", "Download Speed", "Upload Speed"]
        :: data.incidents.map incidentCells).length = data.incidents.length + 1) := by
  refine ⟨?_, ?_, ?_, ?_, ?_⟩
  · simp [generate_pdf_report]
  · simp [generate_pdf_report]
  · simp [generate_pdf_report]
  · intro hinc rows
    simp [generate_pdf_report, hinc, summaryLines]
  · intro hinc
    have hne : data.incidents.isEmpty = false := by simp [List.isEmpty_iff, hinc]
    constructor
    · simp [generate_pdf_report, hne]
    · simp

/-- C9 witness: with an empty incident list the document has no table, and
with one incident the document carries the header-plus-one-row table. -/
theorem generate_pdf_report_sections_witness :
    (∀ rows, Element.table rows ∉ generate_pdf_report sampleReportNoInc "s" "e") ∧
    Element.table (["Timestamp", "Download Speed", "Upload Speed"]
      :: sampleReport.incidents.map incidentCells)
      ∈ generate_pdf_report sampleReport "s" "e" :=
  ⟨(generate_pdf_report_sections sampleReportNoInc "s" "e").2.2.2.1 rfl,
   ((generate_pdf_report_sections sampleReport "s" "e").2.2.2.2 (by decide)).1⟩
